import Mathlib

/-!
Shallow embedding of the message-processing pipeline of the Chatbot
repository (Express/Mongo/Redis chat backend), covering:

* `src/server/config/redis.js` — cache accessors `setCache` / `getCache` /
  `deleteCache`;
* the `AIService` module inside `src/server/services/analyticsService.js`
  (`detectIntent`, `extractEntities`, `analyzeSentiment`,
  `generateResponse`, `personalizeResponse`, `generateFallbackResponse`,
  `getContext`, `updateContext`, `processMessage`);
* the `ChatService` module in the same file together with the mongoose
  `Chat` model of `src/server/models/Chat.js` (pre-save analytics hook,
  `addMessage`, `saveMessage`, `addMessageFeedback`, `endChat`,
  `archiveChat`, `cleanupInactiveChats`, `joinChat`).

Modelling conventions:

* JavaScript numbers that only ever hold decimal constants and their
  sums/means are embedded as `ℚ`.
* Asynchronous I/O collaborators (redis client, Bayes classifier, the
  compromise tagger, the OpenAI client) are embedded as explicit oracle
  inputs describing the observable outcome of each call; an oracle value
  `none` / `.failure` stands for the call throwing.
* A JavaScript function body that can throw is embedded as a function
  into `Except JsError _`; a `try { … } catch` that returns a value on
  both paths is embedded as a total function.
* `Math.random()`-driven choices are embedded by passing the sampled
  natural number index explicitly.
-/

namespace Chatbot

/-- A thrown JavaScript error, as far as the pipeline can observe it. -/
inductive JsError where
  /-- `ReferenceError: <name> is not defined` — evaluating a free
  identifier that is not bound in the enclosing module scope. -/
  | referenceError (name : String)
  /-- Any other runtime error. -/
  | runtimeError
  deriving DecidableEq, Repr

/-! ### `src/server/config/redis.js`

The redis module keeps one module-level `redisClient`, `null` until
`connectRedis` assigns it.  Each accessor wraps its body in
`try { if (redisClient && redisClient.isReady) { … } return false/null }
catch { return false/null }`, so each accessor is a total function of the
client state.  The client itself is embedded as: absent (`null`), or
present with an `isReady` flag, a key-value store (JSON strings keyed by
string), and a flag saying whether the next command the client runs
throws (network failure, serialization error, …). -/

/-- State of the module-level `redisClient` in `redis.js`, as the cache
accessors observe it. `store` maps keys to stored JSON strings. -/
structure RedisClient where
  isReady : Bool
  /-- the key-value store behind `get`/`setEx`/`del` -/
  store : List (String × String)
  /-- the next command issued on the client throws -/
  failing : Bool
  deriving DecidableEq, Repr

/-- The module state of `redis.js`: `none` while `redisClient` is still
`null`. -/
abbrev RedisState : Type := Option RedisClient

/-- `setCache(key, value, expireTime)` from `redis.js` lines 55–66:
stores the JSON-serialized value and returns `true` when the client is
present, ready and the command succeeds; returns `false` (leaving the
store unchanged) when the client is absent, not ready, or the command
throws (the `catch` path).  The serialized value is passed in as
`json`. -/
def setCache (st : RedisState) (key : String) (json : String) :
    Bool × RedisState :=
  match st with
  | none => (false, none)
  | some c =>
    if c.isReady then
      if c.failing then (false, some c)
      else (true, some { c with store := (key, json) :: c.store.filter (fun p => p.1 ≠ key) })
    else (false, some c)

/-- `getCache(key)` from `redis.js` lines 68–79: returns the parsed
stored value, or `null` when the key is missing, the client is absent or
not ready, or the command throws. -/
def getCache (st : RedisState) (key : String) : Option String :=
  match st with
  | none => none
  | some c =>
    if c.isReady then
      if c.failing then none
      else (c.store.lookup key)
    else none

/-- `deleteCache(key)` from `redis.js` lines 81–92: deletes the key and
returns `true` on success; returns `false` when the client is absent,
not ready, or the command throws. -/
def deleteCache (st : RedisState) (key : String) : Bool × RedisState :=
  match st with
  | none => (false, none)
  | some c =>
    if c.isReady then
      if c.failing then (false, some c)
      else (true, some { c with store := c.store.filter (fun p => p.1 ≠ key) })
    else (false, some c)

/-! ### `AIService.analyzeSentiment`

`analyticsService.js` lines 1217–1230.  The `sentiment` npm library call
`sentiment.analyze(message)` produces a lexicon polarity score; the
oracle input is that score, or `none` when the library call throws
(caught by the surrounding `try`). -/

/-- `analyzeSentiment`: maps the lexicon score through the fixed
thresholds `> 2` ⇒ positive, `< -2` ⇒ negative, otherwise neutral;
returns `"neutral"` when the library call throws. -/
def analyzeSentiment (score : Option ℚ) : String :=
  match score with
  | none => "neutral"
  | some s =>
    if s > 2 then "positive"
    else if s < -2 then "negative"
    else "neutral"

/-! ### `AIService.detectIntent`

`analyticsService.js` lines 1085–1136.  Oracles:

* `classifier`: outcome of `this.intentClassifier.classify(message)` plus
  the matching entry of `getClassifications(message)`; `none` when the
  classifier throws (the outer `catch`).  The confidence lookup is
  `…find(c => c.label === classifiedIntent)?.value || 0.5`: `prob = none`
  models the optional-chain producing `undefined`, and a present value of
  `0` is also replaced by `0.5` because `||` treats `0` as falsy.
* `apiKeyConfigured`: whether `process.env.OPENAI_API_KEY` is set.
* `openaiOutcome`: observable outcome of the
  `openai.chat.completions.create` classification request —
  `.success label` carries the trimmed, lower-cased content; `.failure`
  covers timeout, transport error and structurally malformed responses
  (whose destructuring throws and lands in the inner `catch`). -/

/-- Result of the classifier call inside `detectIntent`. -/
structure ClassifierOutput where
  label : String
  /-- `.find(…)?.value`; `none` when no classification entry matches. -/
  prob : Option ℚ
  deriving DecidableEq, Repr

/-- Observable outcome of one external OpenAI request. -/
inductive OpenAIOutcome where
  | success (text : String)
  | failure
  deriving DecidableEq, Repr

/-- An intent value `{ name, confidence, source }`. -/
structure Intent where
  name : String
  confidence : ℚ
  source : String
  deriving DecidableEq, Repr

/-- `detectIntent` result, instrumented with the number of OpenAI
requests the call issued (0 or 1). -/
structure IntentResult where
  intent : Intent
  openaiCalls : ℕ
  deriving DecidableEq, Repr

/-- The `confidence` local of `detectIntent` line 1089–1090:
`getClassifications(…).find(…)?.value || 0.5`. -/
def classifierConfidence (o : ClassifierOutput) : ℚ :=
  match o.prob with
  | none => 1/2
  | some v => if v = 0 then 1/2 else v

/-- `detectIntent` (lines 1085–1136): classify; if the confidence is
below `0.6` and an OpenAI key is configured, issue one classification
request — on success return its label at fixed confidence `0.8` with
source `"openai"`, on failure fall through to the classifier result; the
classifier result applies the floor `Math.max(confidence, 0.3)`; if the
classifier itself threw, return `unknown` at `0.1`. -/
def detectIntent (classifier : Option ClassifierOutput)
    (apiKeyConfigured : Bool) (openaiOutcome : OpenAIOutcome) :
    IntentResult :=
  match classifier with
  | none => ⟨⟨"unknown", 1/10, "fallback"⟩, 0⟩
  | some c =>
    let confidence := classifierConfidence c
    if confidence < 3/5 ∧ apiKeyConfigured then
      match openaiOutcome with
      | .success label => ⟨⟨label, 4/5, "openai"⟩, 1⟩
      | .failure => ⟨⟨c.label, max confidence (3/10), "classifier"⟩, 1⟩
    else
      ⟨⟨c.label, max confidence (3/10), "classifier"⟩, 0⟩

/-! ### `AIService.extractEntities`

`analyticsService.js` lines 1141–1212.  The compromise tagger call
`this.entityExtractor(message)` yields a document exposing six span
lists; the oracle input is that document, or `none` when the tagger
throws (caught, returning `[]`). -/

/-- One extracted entity `{ type, value, confidence }`. -/
structure Entity where
  type : String
  value : String
  confidence : ℚ
  deriving DecidableEq, Repr

/-- The span lists the compromise document exposes. -/
structure NlpDoc where
  people : List String
  places : List String
  organizations : List String
  dates : List String
  numbers : List String
  urls : List String
  deriving DecidableEq, Repr

/-- `extractEntities`: collects the six span lists in source order with
fixed confidences (person/place/organization `0.8`, date/number/URL
`0.9`); returns `[]` when the tagger throws. -/
def extractEntities (doc : Option NlpDoc) : List Entity :=
  match doc with
  | none => []
  | some d =>
    d.people.map (fun v => ⟨"person", v, 4/5⟩) ++
    d.places.map (fun v => ⟨"place", v, 4/5⟩) ++
    d.organizations.map (fun v => ⟨"organization", v, 4/5⟩) ++
    d.dates.map (fun v => ⟨"date", v, 9/10⟩) ++
    d.numbers.map (fun v => ⟨"number", v, 9/10⟩) ++
    d.urls.map (fun v => ⟨"url", v, 9/10⟩)

/-! ### Conversation context (`getContext` / `updateContext` payloads) -/

/-- One entry of the rolling `conversationHistory`
(`{ message, intent, timestamp }` appended by `processMessage`). -/
structure HistoryEntry where
  message : String
  /-- `none` models an entry whose `intent` field is absent/null. -/
  intent : Option Intent
  deriving DecidableEq, Repr

/-- The per-(user, room) context blob stored in the cache. -/
structure AIContext where
  conversationHistory : List HistoryEntry
  /-- `userPreferences.language`, when set. -/
  preferredLanguage : Option String
  lastIntent : Option Intent
  lastEntities : List Entity
  deriving DecidableEq, Repr

/-- The default context returned by `getContext` on a cache miss
(lines 1411–1416). -/
def defaultContext : AIContext :=
  ⟨[], none, none, []⟩

/-! ### `AIService` response templates and generation

`loadResponseTemplates` (lines 940–1003) populates a `Map` from intent
name to a fixed list of template strings; embedded as an association
list in insertion order with the source texts verbatim. -/

/-- The `responseTemplates` map of `loadResponseTemplates`. -/
def responseTemplates : List (String × List String) :=
  [ ("greeting",
     [ "Hello! 👋 How can I help you today? I'm here to assist with questions, provide information, or just chat!",
       "Hi there! 😊 I'm your AI assistant and I'm excited to help. What would you like to explore or work on together?",
       "Hey! Great to see you. I'm ready to help with whatever you need - questions, tasks, or just conversation.",
       "Greetings! I'm your AI companion. What would you like to learn about or discuss today?" ]),
    ("farewell",
     [ "Goodbye! Have a wonderful day ahead! 🌟",
       "See you later! Feel free to come back anytime if you need help.",
       "Take care! I'll be here when you need assistance or want to chat again.",
       "Bye! It was great chatting with you. Come back soon! 👋" ]),
    ("help",
     [ "I'm here to help! I can answer questions, provide information, assist with tasks, help with problem-solving, or just be a great conversation partner. What specific area do you need help with?",
       "Absolutely! I'm your AI assistant and I'm ready to help. I can provide information, answer questions, help with various topics, or just chat. What would you like to work on?",
       "I'm glad you asked! I'm designed to help with a wide range of topics. Whether you need information, have questions, want to explore something new, or just need someone to talk to, I'm here for you. What can I help you with today?" ]),
    ("question",
     [ "That's an interesting question! I'd be happy to help you with that. Could you provide a bit more detail so I can give you the most accurate and helpful response?",
       "Great question! I'm here to help. To give you the best answer, could you tell me a bit more about what you're looking for?",
       "I'd love to help with that! To provide you with the most relevant information, could you share a bit more context about your question?" ]),
    ("complaint",
     [ "I'm sorry to hear you're experiencing an issue. Let me help you resolve this problem together.",
       "I understand your frustration. Let's work together to find a solution and get this sorted out.",
       "I apologize for the inconvenience. Let me assist you in finding a resolution to this problem." ]),
    ("compliment",
     [ "Thank you! 😊 I'm glad I could help and I appreciate your kind words.",
       "You're welcome! I'm happy to assist and I really appreciate your feedback.",
       "Thank you! It's my pleasure to help you. I'm here whenever you need assistance." ]),
    ("information_request",
     [ "I'd be happy to provide you with that information! Let me gather the details you need.",
       "Great! I can help you with that information. Let me find the most relevant details for you.",
       "Absolutely! I'll get you that information right away. What specific details are you looking for?" ]),
    ("task_request",
     [ "I'm ready to help you with that task! Let me understand what you need and guide you through it.",
       "Great! I can assist you with that. Let me break down what we need to do and help you accomplish it.",
       "I'd love to help you with that task! Let me understand your requirements and provide the best assistance." ]),
    ("learning",
     [ "Learning is wonderful! I'm excited to help you explore this topic. What specific aspect would you like to dive into?",
       "That's a great topic to learn about! I'm here to help you understand it better. What would you like to focus on?",
       "I love helping people learn! Let me guide you through this topic. What's your current level of understanding?" ]),
    ("creative",
     [ "Creativity is amazing! I'd love to help you explore ideas and develop your creative project.",
       "That sounds like a wonderful creative endeavor! I'm here to help you brainstorm and develop your ideas.",
       "I'm excited to help with your creative project! Let's explore possibilities and bring your vision to life." ]) ]

/-- JavaScript whitespace trimmed by `String.prototype.trim` (ASCII
subset; the messages in play contain no exotic whitespace). -/
def jsWhitespace (c : Char) : Bool :=
  c = ' ' ∨ c = '\t' ∨ c = '\n' ∨ c = '\r'

/-- JavaScript `String.prototype.trim`. -/
def jsTrim (s : String) : String :=
  ⟨((s.data.dropWhile jsWhitespace).reverse.dropWhile jsWhitespace).reverse⟩

/-- JavaScript `String.prototype.toLowerCase` (ASCII subset). -/
def jsToLower (s : String) : String :=
  ⟨s.data.map Char.toLower⟩

/-- Does `sub` occur as a contiguous sublist of `s`? -/
def listContainsSub (s sub : List Char) : Bool :=
  s.tails.any (fun t => sub.isPrefixOf t)

/-- JavaScript `String.prototype.includes`. -/
def jsIncludes (s sub : String) : Bool :=
  listContainsSub s.data sub.data

/-- JavaScript `str.replace(/\./g, repl)`: rewrite every period. -/
def replaceAllPeriods (repl : List Char) : List Char → List Char
  | [] => []
  | c :: l =>
    if c = '.' then repl ++ replaceAllPeriods repl l
    else c :: replaceAllPeriods repl l

/-- JavaScript `str.replace(/\./g, repl)` on strings. -/
def jsReplaceAllPeriods (s repl : String) : String :=
  ⟨replaceAllPeriods repl.data s.data⟩

/-- Does the string end in a period (JavaScript `/\.$/` match /
`endsWith('.')`)? -/
def jsEndsWithPeriod (s : String) : Bool :=
  s.data.getLast? = some '.'

/-- JavaScript `str.replace(/\.$/, repl)`: rewrite a trailing period into
`repl` (at most one occurrence, anchored at the end). -/
def jsReplaceTrailingPeriod (s repl : String) : String :=
  if jsEndsWithPeriod s then ⟨s.data.dropLast ++ repl.data⟩ else s

/-- JavaScript `[...new Set(l)]`: deduplicate keeping first occurrences
(`seen` accumulates the elements already emitted). -/
def jsSetDedupAux (seen : List String) : List String → List String
  | [] => []
  | a :: l =>
    if a ∈ seen then jsSetDedupAux seen l
    else a :: jsSetDedupAux (a :: seen) l

/-- JavaScript `[...new Set(l)]`. -/
def jsSetDedup (l : List String) : List String :=
  jsSetDedupAux [] l

/-- JavaScript `l.slice(-3)`: the last three elements (all of them when
fewer). -/
def jsSliceLastThree {α : Type} (l : List α) : List α :=
  l.drop (l.length - 3)

/-- `personalizeResponse(response, sentiment, context)`
(lines 1313–1359): positive sentiment without a celebratory emoji
rewrites every period into `! 😊`; negative sentiment without an
empathetic phrase appends a supportive sentence to a trailing period;
when the last three history turns carry one single recurring intent
name, an acknowledgment referencing it is appended to a trailing period;
finally, a text still lacking any emoji or `!` has a trailing period
rewritten into `! 😊`. -/
def personalizeResponse (response : String) (sentiment : String)
    (context : AIContext) : String :=
  let p1 :=
    if sentiment = "positive" then
      if ¬(jsIncludes response "😊" ∨ jsIncludes response "👋" ∨
           jsIncludes response "🌟") then
        jsReplaceAllPeriods response "! 😊"
      else response
    else if sentiment = "negative" then
      if ¬(jsIncludes response "I understand" ∨ jsIncludes response "I'm here") then
        jsReplaceTrailingPeriod response ". I'm here to help you through this."
      else response
    else response
  let p2 :=
    if context.conversationHistory.length > 0 then
      let recentTopics :=
        (jsSliceLastThree context.conversationHistory).filterMap
          (fun e => match e.intent with
            | some i => if i.name ≠ "" then some i.name else none
            | none => none)
      if recentTopics.length > 0 then
        let uniqueTopics := jsSetDedup recentTopics
        if uniqueTopics.length = 1 then
          jsReplaceTrailingPeriod p1
            (". I notice you're interested in " ++ uniqueTopics.headI ++
             " - I'd be happy to explore that further with you!")
        else p1
      else p1
    else p1
  if ¬(jsIncludes p2 "😊" ∨ jsIncludes p2 "👋" ∨ jsIncludes p2 "🌟" ∨
       jsIncludes p2 "!") then
    if jsEndsWithPeriod p2 then ⟨p2.data.dropLast ++ "! 😊".data⟩ else p2
  else p2

/-- The four generic fallback strings of `generateFallbackResponse`
(lines 1394–1399). -/
def genericFallbacks : List String :=
  [ "I want to make sure I understand you correctly. Could you rephrase that or provide a bit more context?",
    "I'm here to help, but I need to understand better what you're looking for. Could you try explaining it differently?",
    "I'd love to assist you with that! To give you the most helpful response, could you provide a bit more detail?",
    "I'm still learning and want to make sure I get this right. Could you help me understand what you need by explaining it another way?" ]

/-- `generateFallbackResponse(intent, sentiment)` (lines 1364–1402):
intent-specific canned fallbacks for five intents, a sentiment-specific
fallback for negative sentiment, otherwise a random pick from the
generic pool (`fallbackRand` is the sampled index). -/
def generateFallbackResponse (intent : Intent) (sentiment : String)
    (fallbackRand : ℕ) : String :=
  if intent.name = "question" then
    "I'd love to help with your question! To give you the best answer, could you provide a bit more context or rephrase it in a different way?"
  else if intent.name = "information_request" then
    "I'm here to help you find that information! Could you be more specific about what you're looking for?"
  else if intent.name = "task_request" then
    "I'm ready to help you with that task! Let me understand what you need - could you break it down into smaller steps?"
  else if intent.name = "learning" then
    "I'm excited to help you learn! To make this most helpful, could you tell me what you already know about this topic?"
  else if intent.name = "creative" then
    "I'd love to help with your creative project! Could you share more details about what you're working on?"
  else if sentiment = "negative" then
    "I understand this might be frustrating. Let me try to help you in a different way. Could you explain what you need in simpler terms?"
  else
    genericFallbacks.getD (fallbackRand % genericFallbacks.length) ""

/-- Which branch of `generateResponse` produced the reply. -/
inductive ResponsePath where
  | template
  | generative
  | fallback
  deriving DecidableEq, Repr

/-- `generateResponse` reply, instrumented with the branch that returned
it. -/
structure GeneratedResponse where
  text : String
  path : ResponsePath
  deriving DecidableEq, Repr

/-- `generateResponse(message, intent, entities, sentiment, context)`
(lines 1235–1280): when the template map holds the detected intent name
and the intent confidence exceeds `0.7`, personalize a uniformly sampled
template (`templateRand` is `Math.floor(Math.random() * length)`);
otherwise, with an OpenAI key configured, request a completion and
personalize it on success; otherwise (or on request failure) return the
canned fallback. -/
def generateResponse (intent : Intent) (sentiment : String)
    (context : AIContext) (apiKeyConfigured : Bool)
    (openaiOutcome : OpenAIOutcome) (templateRand fallbackRand : ℕ) :
    GeneratedResponse :=
  match responseTemplates.lookup intent.name with
  | some templates =>
    if intent.confidence > 7/10 then
      ⟨personalizeResponse (templates.getD (templateRand % templates.length) "")
        sentiment context, .template⟩
    else if apiKeyConfigured then
      match openaiOutcome with
      | .success text => ⟨personalizeResponse text sentiment context, .generative⟩
      | .failure => ⟨generateFallbackResponse intent sentiment fallbackRand, .fallback⟩
    else ⟨generateFallbackResponse intent sentiment fallbackRand, .fallback⟩
  | none =>
    if apiKeyConfigured then
      match openaiOutcome with
      | .success text => ⟨personalizeResponse text sentiment context, .generative⟩
      | .failure => ⟨generateFallbackResponse intent sentiment fallbackRand, .fallback⟩
    else ⟨generateFallbackResponse intent sentiment fallbackRand, .fallback⟩

/-! ### The `AIService` cache view and context accessors

`processMessage` stores its results under keys prefixed `ai_response:`
and the context blob under keys prefixed `context:`; the two key spaces
are disjoint, so the redis store is embedded here as two typed maps plus
one `ok` flag folding together “client present, ready, and commands
succeeding” (by the `redis.js` accessors, every degraded case behaves
exactly like a read miss / dropped write, see `getCache`/`setCache`
above). -/

/-- The result object `processMessage` builds and caches
(lines 1051–1059).  `responseTime` is wall-clock latency and is omitted:
it is recomputed on every return and carries no pipeline logic. -/
structure AIResult where
  response : String
  intent : Intent
  entities : List Entity
  sentiment : String
  confidence : ℚ
  cached : Bool
  deriving DecidableEq, Repr

/-- The cache as `AIService` sees it. -/
structure AICache where
  /-- client present ∧ ready ∧ commands succeed -/
  ok : Bool
  /-- entries under `ai_response:` keys -/
  responses : List (String × AIResult)
  /-- entries under `context:` keys -/
  contexts : List (String × AIContext)
  deriving DecidableEq, Repr

/-- `getCache` specialised to an `ai_response:` key. -/
def getResponseCache (c : AICache) (key : String) : Option AIResult :=
  if c.ok then c.responses.lookup key else none

/-- `setCache` specialised to an `ai_response:` key. -/
def setResponseCache (c : AICache) (key : String) (v : AIResult) : AICache :=
  if c.ok then
    { c with responses := (key, v) :: c.responses.filter (fun p => p.1 ≠ key) }
  else c

/-- `getCache` specialised to a `context:` key. -/
def getContextCache (c : AICache) (key : String) : Option AIContext :=
  if c.ok then c.contexts.lookup key else none

/-- `setCache` specialised to a `context:` key. -/
def setContextCache (c : AICache) (key : String) (v : AIContext) : AICache :=
  if c.ok then
    { c with contexts := (key, v) :: c.contexts.filter (fun p => p.1 ≠ key) }
  else c

/-- The context cache key `` `context:${userId}:${roomId}` ``. -/
def contextKeyFor (userId roomId : String) : String :=
  "context:" ++ userId ++ ":" ++ roomId

/-- `AIService.getContext(userId, roomId)` (lines 1407–1417): the cached
context, or the default context on a miss. -/
def getContext (cache : AICache) (userId roomId : String) : AIContext :=
  match getContextCache cache (contextKeyFor userId roomId) with
  | some c => c
  | none => defaultContext

/-! ### `AIService.updateContext` and the free-identifier fault

Line 1424 of `analyticsService.js` reads
`const existingContext = await getContext(userId, roomId);` — a call to
the *free identifier* `getContext`, not to the method
`this.getContext`.  The `AIService` module scope binds (via `require`
and module-level declarations) only the names listed below; `getContext`
is not among them, so evaluating that line throws
`ReferenceError: getContext is not defined` on every call. -/

/-- The identifiers bound in the module scope of the `AIService` file:
its four `require` bindings plus the module-level `openai`, `sentiment`
and `tokenizer` declarations and the class name. -/
def aiServiceModuleScope : List String :=
  ["natural", "compromise", "Sentiment", "OpenAI", "getCache", "setCache",
   "openai", "sentiment", "tokenizer", "AIService"]

/-- Evaluating a free identifier: its value when bound in module scope
(the values themselves are irrelevant here), a `ReferenceError`
otherwise. -/
def lookupFree (name : String) : Except JsError Unit :=
  if name ∈ aiServiceModuleScope then .ok () else .error (.referenceError name)

/-- The fields `processMessage` passes to `updateContext`
(lines 1034–1038). -/
structure ContextUpdate where
  lastIntent : Intent
  lastEntities : List Entity
  conversationHistory : List HistoryEntry
  deriving DecidableEq, Repr

/-- JavaScript `history.slice(-20)` applied when the merged history
exceeds 20 entries (lines 1433–1435). -/
def capHistory (h : List HistoryEntry) : List HistoryEntry :=
  if h.length > 20 then h.drop (h.length - 20) else h

/-- `AIService.updateContext(userId, roomId, contextData)`
(lines 1422–1438).  Its first statement evaluates the free identifier
`getContext` (see `aiServiceModuleScope`), so the call always throws;
the merge-and-store logic after the faulty line is embedded for
completeness (reading the call as the class method would behave) but is
unreachable. -/
def updateContext (cache : AICache) (userId roomId : String)
    (d : ContextUpdate) : Except JsError AICache :=
  match lookupFree "getContext" with
  | .error e => .error e
  | .ok _ =>
    let existing := getContext cache userId roomId
    let updated : AIContext :=
      { existing with
        lastIntent := some d.lastIntent
        lastEntities := d.lastEntities
        conversationHistory := capHistory d.conversationHistory }
    .ok (setContextCache cache (contextKeyFor userId roomId) updated)

/-! ### `AIService.processMessage` -/

/-- The oracle inputs of one `processMessage` run: outcome of each
external collaborator call and the two `Math.random()` samples. -/
structure PipelineOracle where
  classifier : Option ClassifierOutput
  apiKeyConfigured : Bool
  /-- outcome of the intent-classification OpenAI request -/
  openaiIntentOutcome : OpenAIOutcome
  /-- the compromise document, `none` when the tagger throws -/
  nlpDoc : Option NlpDoc
  /-- the lexicon polarity score, `none` when the scorer throws -/
  sentimentScore : Option ℚ
  /-- outcome of the response-generation OpenAI request -/
  openaiGenOutcome : OpenAIOutcome
  templateRand : ℕ
  fallbackRand : ℕ
  deriving DecidableEq, Repr

/-- The response cache key `` `ai_response:${message.toLowerCase().trim()}` ``
(line 1013). -/
def cacheKeyFor (message : String) : String :=
  "ai_response:" ++ jsTrim (jsToLower message)

/-- The fixed fallback result of the `catch` block of `processMessage`
(lines 1070–1078); the `intent` object there carries no `source`
property, embedded as the empty string. -/
def fallbackResult : AIResult :=
  { response := "I apologize, but I'm having trouble processing your message right now. Could you please try rephrasing it?",
    intent := ⟨"fallback", 1/10, ""⟩,
    entities := [],
    sentiment := "neutral",
    confidence := 1/10,
    cached := false }

/-- The `try` block of `processMessage` (lines 1011–1064): cache lookup
and early return; otherwise intent → entities → sentiment → context →
response generation, the `updateContext` call (which throws), learning
data, result construction and caching. -/
def processMessageTry (o : PipelineOracle) (cache : AICache)
    (message userId roomId : String) :
    Except JsError (AIResult × AICache) :=
  let cacheKey := cacheKeyFor message
  match getResponseCache cache cacheKey with
  | some r => .ok ({ r with cached := true }, cache)
  | none =>
    let intentRes := detectIntent o.classifier o.apiKeyConfigured o.openaiIntentOutcome
    let intent := intentRes.intent
    let entities := extractEntities o.nlpDoc
    let sentiment := analyzeSentiment o.sentimentScore
    let context := getContext cache userId roomId
    let response := generateResponse intent sentiment context
      o.apiKeyConfigured o.openaiGenOutcome o.templateRand o.fallbackRand
    match updateContext cache userId roomId
      { lastIntent := intent
        lastEntities := entities
        conversationHistory :=
          context.conversationHistory ++ [⟨message, some intent⟩] } with
    | .error e => .error e
    | .ok cache1 =>
      let result : AIResult :=
        { response := response.text
          intent := intent
          entities := entities
          sentiment := sentiment
          confidence := intent.confidence
          cached := false }
      .ok (result, setResponseCache cache1 cacheKey result)

/-- `processMessage` (lines 1008–1080): the `try` block above under the
universal `catch` that converts any thrown error into the fixed
fallback result (the cache is left as the failed run left it). -/
def processMessage (o : PipelineOracle) (cache : AICache)
    (message userId roomId : String) : AIResult × AICache :=
  match processMessageTry o cache message userId roomId with
  | .ok (r, c) => (r, c)
  | .error _ => (fallbackResult, cache)

/-! ### The `Chat` mongoose model (`src/server/models/Chat.js`)

Timestamps (`Date` values) are embedded as abstract ticks `ℕ`; the
current wall-clock instant is passed in as `now` where the code calls
`new Date()` / `Date.now()`. -/

/-- The `status` enum of the chat schema. -/
inductive ChatStatus where
  | active
  | paused
  | ended
  | archived
  deriving DecidableEq, Repr

/-- A message's optional `feedback` sub-document. -/
structure Feedback where
  rating : ℚ
  comment : String
  timestamp : ℕ
  deriving DecidableEq, Repr

/-- One entry of the embedded `messages` array. -/
structure ChatMsg where
  userId : String
  message : String
  response : String
  intent : String
  entities : List Entity
  sentiment : String
  confidence : ℚ
  responseTime : ℚ
  feedback : Option Feedback
  deriving DecidableEq, Repr

/-- One entry of the `participants` array. -/
structure Participant where
  userId : String
  role : String
  joinedAt : ℕ
  leftAt : Option ℕ
  deriving DecidableEq, Repr

/-- The `analytics` sub-document. -/
structure ChatAnalytics where
  totalMessages : ℕ
  averageResponseTime : ℚ
  userSatisfaction : ℚ
  lastActivity : ℕ
  deriving DecidableEq, Repr

/-- A chat document (the fields the claims touch). -/
structure ChatDoc where
  roomId : String
  participants : List Participant
  messages : List ChatMsg
  status : ChatStatus
  analytics : ChatAnalytics
  deriving DecidableEq, Repr

/-- Is a message rated, in the JavaScript-truthiness sense of
`m.feedback && m.feedback.rating` (a rating of `0` is falsy)? -/
def isRated (m : ChatMsg) : Bool :=
  match m.feedback with
  | some f => f.rating ≠ 0
  | none => false

/-- The `pre('save')` analytics hook of `Chat.js` lines 194–214: when
messages exist, recompute `totalMessages`, `averageResponseTime` (mean
over all messages), `lastActivity`, and `userSatisfaction` (mean over
rated messages, left unchanged when none are rated). -/
def preSaveHook (now : ℕ) (c : ChatDoc) : ChatDoc :=
  if c.messages.length > 0 then
    let responseTimes := c.messages.map (fun m => m.responseTime)
    let rated := c.messages.filter (fun m => isRated m)
    { c with
      analytics :=
        { totalMessages := c.messages.length
          averageResponseTime := responseTimes.sum / responseTimes.length
          lastActivity := now
          userSatisfaction :=
            if rated.length > 0 then
              (rated.map (fun m => (m.feedback.map Feedback.rating).getD 0)).sum
                / rated.length
            else c.analytics.userSatisfaction } }
  else c

/-- `chat.save()`: runs the pre-save hook, then persists. -/
def chatSave (now : ℕ) (c : ChatDoc) : ChatDoc :=
  preSaveHook now c

/-- The `addMessage` instance method of `Chat.js` lines 217–220: push
then save. -/
def addMessage (now : ℕ) (c : ChatDoc) (m : ChatMsg) : ChatDoc :=
  chatSave now { c with messages := c.messages ++ [m] }

/-- The `addParticipant` instance method of `Chat.js` lines 223–229:
push `{ userId, role }` unless a participant with that `userId` already
exists (regardless of `leftAt`), then save. -/
def addParticipant (now : ℕ) (c : ChatDoc) (userId role : String) : ChatDoc :=
  chatSave now <|
    if c.participants.any (fun p => p.userId = userId) then c
    else { c with participants := c.participants ++ [⟨userId, role, now, none⟩] }

/-- Set `leftAt` on the first participant matching `userId`
(`participants.find(…)` of `Chat.js` line 233). -/
def setLeftAtFirst (now : ℕ) (userId : String) :
    List Participant → List Participant
  | [] => []
  | p :: ps =>
    if p.userId = userId then { p with leftAt := some now } :: ps
    else p :: setLeftAtFirst now userId ps

/-- The `removeParticipant` instance method of `Chat.js` lines 232–238:
stamp `leftAt` on the first matching participant, then save. -/
def removeParticipant (now : ℕ) (c : ChatDoc) (userId : String) : ChatDoc :=
  chatSave now { c with participants := setLeftAtFirst now userId c.participants }

/-! ### `ChatService` operations (`analyticsService.js` lines 1522–2053)

Each operation first fetches the chat via `getChat(roomId)`; the fetch
is embedded by passing the fetched document directly (`none` = not
found).  Operations that `throw` on their precondition checks are
embedded into `Except JsError _`. -/

/-- JavaScript `x || d` on an optional number (`0` is falsy). -/
def jsOrQ (v : Option ℚ) (d : ℚ) : ℚ :=
  match v with
  | none => d
  | some x => if x = 0 then d else x

/-- JavaScript `x || d` on an optional string (`''` is falsy). -/
def jsOrStr (v : Option String) (d : String) : String :=
  match v with
  | none => d
  | some x => if x = "" then d else x

/-- The raw `messageData` passed to `ChatService.saveMessage`. -/
structure MessageData where
  userId : String
  message : String
  response : String
  intentName : String
  entities : List Entity
  sentiment : Option String
  confidence : Option ℚ
  responseTime : Option ℚ
  deriving DecidableEq, Repr

/-- The `messageObj` built at lines 1655–1670: defaults
`sentiment || 'neutral'`, `confidence || 0.5`, `responseTime || 0`, no
feedback. -/
def buildMessageObj (d : MessageData) : ChatMsg :=
  { userId := d.userId
    message := d.message
    response := d.response
    intent := d.intentName
    entities := d.entities
    sentiment := jsOrStr d.sentiment "neutral"
    confidence := jsOrQ d.confidence (1/2)
    responseTime := jsOrQ d.responseTime 0
    feedback := none }

/-- `ChatService.saveMessage` (lines 1644–1702): throw when the chat is
missing; otherwise `addMessage` (push + save, running the pre-save
hook), then re-assign `totalMessages` / `lastActivity` /
`averageResponseTime` by hand (lines 1676–1681) and save again. -/
def saveMessage (now : ℕ) (chat : Option ChatDoc) (d : MessageData) :
    Except JsError ChatDoc :=
  match chat with
  | none => .error .runtimeError
  | some c0 =>
    let c1 := addMessage now c0 (buildMessageObj d)
    let responseTimes := c1.messages.map (fun m => m.responseTime)
    let c2 :=
      { c1 with
        analytics :=
          { c1.analytics with
            totalMessages := c1.messages.length
            lastActivity := now
            averageResponseTime := responseTimes.sum / responseTimes.length } }
    .ok (chatSave now c2)

/-- The feedback payload of `addMessageFeedback`. -/
structure FeedbackInput where
  rating : ℚ
  comment : String
  deriving DecidableEq, Repr

/-- `updateChatAnalytics(chat)` (lines 1986–2003): recompute
`userSatisfaction` over rated messages when any exist, then save. -/
def updateChatAnalytics (now : ℕ) (c : ChatDoc) : ChatDoc :=
  let rated := c.messages.filter (fun m => isRated m)
  let c1 :=
    if rated.length > 0 then
      { c with
        analytics :=
          { c.analytics with
            userSatisfaction :=
              (rated.map (fun m => (m.feedback.map Feedback.rating).getD 0)).sum
                / rated.length } }
    else c
  chatSave now c1

/-- `ChatService.addMessageFeedback(roomId, messageId, feedback)`
(lines 1801–1834): throw when the chat or the message is missing;
otherwise **unconditionally** assign
`message.feedback = { rating, comment, timestamp: new Date() }`
(no check that feedback already exists), save, and update analytics.
The message is addressed by its index in the `messages` array (the
embedding of `messages.id(messageId)`). -/
def addMessageFeedback (now : ℕ) (chat : Option ChatDoc) (messageIdx : ℕ)
    (fb : FeedbackInput) : Except JsError ChatDoc :=
  match chat with
  | none => .error .runtimeError
  | some c =>
    match c.messages.get? messageIdx with
    | none => .error .runtimeError
    | some m =>
      let m1 := { m with feedback := some ⟨fb.rating, fb.comment, now⟩ }
      let c1 := chatSave now { c with messages := c.messages.set messageIdx m1 }
      .ok (updateChatAnalytics now c1)

/-- `ChatService.endChat(roomId, userId)` (lines 1839–1884): throw when
the chat is missing or the user is not a participant; stamp the user's
`leftAt`; when no active participants remain, set `status = 'ended'`
and save.  No precondition on the current status is checked. -/
def endChat (now : ℕ) (chat : Option ChatDoc) (userId : String) :
    Except JsError ChatDoc :=
  match chat with
  | none => .error .runtimeError
  | some c =>
    if c.participants.any (fun p => p.userId = userId) then
      let c1 := removeParticipant now c userId
      let activeParticipants := c1.participants.filter (fun p => p.leftAt = none)
      if activeParticipants.length = 0 then
        .ok (chatSave now
          { c1 with status := .ended
                    analytics := { c1.analytics with lastActivity := now } })
      else .ok c1
    else .error .runtimeError

/-- `ChatService.archiveChat(roomId, userId)` (lines 1889–1920): throw
when the chat is missing or the caller's role is not admin/moderator;
otherwise set `status = 'archived'` and save.  No precondition on the
current status is checked. -/
def archiveChat (now : ℕ) (chat : Option ChatDoc) (userRole : Option String) :
    Except JsError ChatDoc :=
  match chat with
  | none => .error .runtimeError
  | some c =>
    match userRole with
    | some role =>
      if role = "admin" ∨ role = "moderator" then
        .ok (chatSave now { c with status := .archived })
      else .error .runtimeError
    | none => .error .runtimeError

/-- The per-chat step of `ChatService.cleanupInactiveChats`
(lines 2017–2039): the query selects chats with `status = 'active'` and
`lastActivity` older than the 24-hour threshold; each selected chat is
set to `'paused'` and saved; other chats are untouched. -/
def cleanupStep (now threshold : ℕ) (c : ChatDoc) : ChatDoc :=
  if c.status = .active ∧ c.analytics.lastActivity < threshold then
    chatSave now { c with status := .paused }
  else c

/-- `ChatService.joinChat(userId, roomId)` (lines 1574–1614): throw when
the chat is missing or its status is not `'active'`; add the user as a
participant when not already active in it (then save twice:
`addParticipant` saves, and line 1593 saves again). -/
def joinChat (now : ℕ) (chat : Option ChatDoc) (userId : String) :
    Except JsError ChatDoc :=
  match chat with
  | none => .error .runtimeError
  | some c =>
    if c.status = .active then
      let isParticipant :=
        c.participants.any (fun p => p.userId = userId ∧ p.leftAt = none)
      if isParticipant then .ok c
      else .ok (chatSave now (addParticipant now c userId "user"))
    else .error .runtimeError

/-! ### The status-transition relation claimed by the specification

Stated from the spec's words (“`status` transitions only active→paused,
paused→active, active→ended, any→archived”), to be compared against the
transitions the `ChatService` operations actually perform. -/

/-- The spec's claimed set of permitted status transitions (staying put
included). -/
def specAllowedStatusTransition (s t : ChatStatus) : Bool :=
  s == t || (s == .active && t == .paused) || (s == .paused && t == .active)
    || (s == .active && t == .ended) || t == .archived

/-! ### Concrete fixtures used by witnesses and counterexamples -/

/-- An oracle describing a run in which every external collaborator call
fails (no OpenAI key, classifier and tagger and scorer throw). -/
def exampleOracle : PipelineOracle :=
  ⟨none, false, .failure, none, none, .failure, 0, 0⟩

/-- A message fixture with a given latency. -/
def exampleMessage (rt : ℚ) : ChatMsg :=
  ⟨"u1", "hi", "Hello!", "greeting", [], "neutral", 1, rt, none⟩

/-- A chat fixture with two stored messages of latencies 100 and 200. -/
def exampleChatTwo : ChatDoc :=
  ⟨"roomA", [⟨"u1", "user", 0, none⟩],
   [exampleMessage 100, exampleMessage 200], .active, ⟨2, 150, 0, 0⟩⟩

/-- A third-message payload with latency 300. -/
def exampleData300 : MessageData :=
  ⟨"u1", "hey", "Hi!", "greeting", [], some "neutral", some 1, some 300⟩

/-- A chat fixture with one stored message. -/
def exampleChatOneMsg : ChatDoc :=
  ⟨"roomB", [⟨"u1", "user", 0, none⟩], [exampleMessage 100], .active,
   ⟨1, 100, 0, 0⟩⟩

/-- An active chat fixture with no messages. -/
def exampleActiveChat : ChatDoc :=
  ⟨"roomC", [⟨"u1", "user", 0, none⟩], [], .active, ⟨0, 0, 0, 0⟩⟩

/-! ## Theorems -/

/-- Arithmetic helper: `0.7 < 0.8`. -/
theorem sevenTenths_lt_fourFifths : (7 : ℚ)/10 < 4/5 := by norm_num

/-- Arithmetic helper: the classifier-confidence of the fixture
`⟨"greeting", some (1/2)⟩` is below the `0.6` escalation threshold. -/
theorem exampleClassifierConfidence_lt :
    classifierConfidence ⟨"greeting", some (1/2)⟩ < 3/5 := by
  norm_num [classifierConfidence]

/-- Helper: the pre-save hook never changes the `status` field. -/
theorem chatSave_status (now : ℕ) (c : ChatDoc) :
    (chatSave now c).status = c.status := by
  unfold chatSave preSaveHook
  split <;> rfl

/-- Helper: the pre-save hook never changes the `messages` field. -/
theorem chatSave_messages (now : ℕ) (c : ChatDoc) :
    (chatSave now c).messages = c.messages := by
  unfold chatSave preSaveHook
  split <;> rfl

/-- C3: the sentiment scorer is a pure function of the lexicon polarity
score — strictly above 2 maps to "positive", strictly below −2 maps to
"negative", everything else (boundary scores 2 and −2 included) maps to
"neutral", and a thrown scorer error yields "neutral". -/
theorem analyzeSentiment_threshold_spec (q : ℚ) :
    analyzeSentiment (some q)
      = (if 2 < q then "positive"
         else if q < -2 then "negative" else "neutral")
    ∧ analyzeSentiment (some 2) = "neutral"
    ∧ analyzeSentiment (some (-2)) = "neutral"
    ∧ analyzeSentiment none = "neutral" := by
  refine ⟨rfl, ?_, ?_, rfl⟩ <;> norm_num [analyzeSentiment]

/-- C4: for every classifier output (any label, any probability) the
intent detector's final reported confidence is at least `0.3`, on both
the classifier path and the OpenAI path; separately, when the classifier
itself throws, the detector returns `unknown` at confidence `0.1`
(below that floor), exactly as the spec states. -/
theorem detectIntent_confidence_floor (c : ClassifierOutput) (key : Bool)
    (oai : OpenAIOutcome) :
    3/10 ≤ (detectIntent (some c) key oai).intent.confidence
    ∧ detectIntent none key oai = ⟨⟨"unknown", 1/10, "fallback"⟩, 0⟩ := by
  refine ⟨?_, rfl⟩
  unfold detectIntent
  dsimp only
  split
  · cases oai with
    | success label => dsimp only; norm_num
    | failure => exact le_max_right _ _
  · exact le_max_right _ _

/-- C10: the cache accessors are total functions of the client state
(the embedding types them as plain functions because every path of their
bodies is inside `try … catch` and returns a value); whenever the client
is absent, not ready, or its command errors, `getCache` returns null,
`setCache` and `deleteCache` return `false`, and the store is left
untouched, so every caching step degrades to a no-op. -/
theorem cache_accessors_total_degrade (st : RedisState) (key json : String)
    (h : st = none ∨ ∃ c, st = some c ∧ (c.isReady = false ∨ c.failing = true)) :
    getCache st key = none
    ∧ setCache st key json = (false, st)
    ∧ deleteCache st key = (false, st) := by
  rcases h with rfl | ⟨c, rfl, hc⟩
  · exact ⟨rfl, rfl, rfl⟩
  · rcases hc with h1 | h2
    · simp [getCache, setCache, deleteCache, h1]
    · cases hr : c.isReady <;>
        simp [getCache, setCache, deleteCache, hr, h2]

/-- C10 witness: the degraded accessors at the concrete absent-client
state. -/
theorem cache_accessors_total_degrade_witness :
    getCache none "k" = none ∧ setCache none "k" "v" = (false, none)
    ∧ deleteCache none "k" = (false, none) :=
  cache_accessors_total_degrade none "k" "v" (Or.inl rfl)

/-- C1: the pipeline never propagates an exception — `processMessage` is
a total function, and whenever its `try` block throws at any internal
stage it returns exactly the fixed fallback result: the apology string,
intent named "fallback" at confidence `0.1`, empty entities, and neutral
sentiment (the cache is not written). -/
theorem processMessage_never_raises (o : PipelineOracle) (cache : AICache)
    (message userId roomId : String) (e : JsError)
    (h : processMessageTry o cache message userId roomId = .error e) :
    processMessage o cache message userId roomId = (fallbackResult, cache)
    ∧ fallbackResult.response
        = "I apologize, but I'm having trouble processing your message right now. Could you please try rephrasing it?"
    ∧ fallbackResult.intent = ⟨"fallback", 1/10, ""⟩
    ∧ fallbackResult.entities = []
    ∧ fallbackResult.sentiment = "neutral" := by
  refine ⟨?_, rfl, rfl, rfl, rfl⟩
  unfold processMessage
  rw [h]

/-- C1 witness: a concrete cache-miss run (empty cache, all collaborator
calls failing) throws inside the `try` block and is converted to the
fixed fallback result. -/
theorem processMessage_never_raises_witness :
    processMessageTry exampleOracle ⟨true, [], []⟩ "hello" "u1" "roomA"
        = .error (.referenceError "getContext")
    ∧ processMessage exampleOracle ⟨true, [], []⟩ "hello" "u1" "roomA"
        = (fallbackResult, ⟨true, [], []⟩) :=
  ⟨rfl, (processMessage_never_raises exampleOracle ⟨true, [], []⟩
    "hello" "u1" "roomA" (.referenceError "getContext") rfl).1⟩

/-- C2: the cache-path idempotence property fails on the code —
`updateContext` calls the free identifier `getContext` (line 1424),
which is not bound in the `AIService` module scope, so every cache-miss
run of `processMessage` throws before the `setCache` call at line 1062:
the first call with "hello" leaves the cache unchanged, and the second
call with identical text reports `cached = false` (the spec's
`wasCached = true` is never reached) and returns the fallback rather
than the first call's fields. -/
theorem processMessage_cache_idempotence_fails :
    lookupFree "getContext" = .error (.referenceError "getContext")
    ∧ (processMessage exampleOracle ⟨true, [], []⟩ "hello" "u1" "roomA").2
        = ⟨true, [], []⟩
    ∧ ((processMessage exampleOracle
          ((processMessage exampleOracle ⟨true, [], []⟩ "hello" "u1" "roomA").2)
          "hello" "u2" "roomB").1).cached = false
    ∧ ((processMessage exampleOracle ⟨true, [], []⟩ "hello" "u1" "roomA").1).response
        = fallbackResult.response :=
  ⟨rfl, rfl, rfl, rfl⟩

/-- C6: when the bag-of-words probability is below `0.6` and an OpenAI
credential is configured, `detectIntent` issues exactly one
classification request; on success it returns that label at fixed
confidence `0.8` with source "openai", and on failure it returns the
original classifier result (label and floored confidence); without a
credential no request is issued. -/
theorem detectIntent_low_confidence_escalation (c : ClassifierOutput)
    (h : classifierConfidence c < 3/5) :
    (∀ label, detectIntent (some c) true (.success label)
        = ⟨⟨label, 4/5, "openai"⟩, 1⟩)
    ∧ detectIntent (some c) true .failure
        = ⟨⟨c.label, max (classifierConfidence c) (3/10), "classifier"⟩, 1⟩
    ∧ (∀ oai, detectIntent (some c) false oai
        = ⟨⟨c.label, max (classifierConfidence c) (3/10), "classifier"⟩, 0⟩) := by
  refine ⟨fun label => ?_, ?_, fun oai => ?_⟩ <;>
    simp [detectIntent, h]

/-- C6 witness: the escalation at the concrete fixture of classifier
confidence `0.5`. -/
theorem detectIntent_low_confidence_escalation_witness :
    detectIntent (some ⟨"greeting", some (1/2)⟩) true (.success "help")
      = ⟨⟨"help", 4/5, "openai"⟩, 1⟩ :=
  (detectIntent_low_confidence_escalation ⟨"greeting", some (1/2)⟩
    exampleClassifierConfidence_lt).1 "help"

/-- C5: whenever a canned-response set exists for the detected intent
and the intent confidence strictly exceeds `0.7`, the response generator
returns (the personalization of) the template at the uniformly sampled
index — every template of the set is the pick for the corresponding
sample — and conversely the template path is taken only under that
conjunction of conditions. -/
theorem generateResponse_template_path (intent : Intent) (sentiment : String)
    (context : AIContext) (key : Bool) (gen : OpenAIOutcome) (r fr : ℕ)
    (ts : List String)
    (hts : responseTemplates.lookup intent.name = some ts)
    (hconf : 7/10 < intent.confidence) :
    generateResponse intent sentiment context key gen r fr
      = ⟨personalizeResponse (ts.getD (r % ts.length) "") sentiment context,
         .template⟩
    ∧ (∀ k, k < ts.length →
        generateResponse intent sentiment context key gen k fr
          = ⟨personalizeResponse (ts.getD k "") sentiment context, .template⟩)
    ∧ (∀ (j : Intent) (s₂ : String) (c₂ : AIContext) (k₂ : Bool)
        (g₂ : OpenAIOutcome) (tr fb : ℕ),
        (generateResponse j s₂ c₂ k₂ g₂ tr fb).path = ResponsePath.template →
        (responseTemplates.lookup j.name).isSome ∧ 7/10 < j.confidence) := by
  refine ⟨?_, fun k hk => ?_, fun j s₂ c₂ k₂ g₂ tr fb hp => ?_⟩
  · unfold generateResponse
    rw [hts]
    dsimp only
    rw [if_pos hconf]
  · unfold generateResponse
    rw [hts]
    dsimp only
    rw [if_pos hconf, Nat.mod_eq_of_lt hk]
  · unfold generateResponse at hp
    cases hlk : responseTemplates.lookup j.name with
    | some ts₂ =>
      rw [hlk] at hp
      dsimp only at hp
      refine ⟨by simp [hlk], ?_⟩
      by_contra hlt
      rw [if_neg hlt] at hp
      cases k₂ <;> cases g₂ <;> simp at hp
    | none =>
      rw [hlk] at hp
      dsimp only at hp
      cases k₂ <;> cases g₂ <;> simp at hp

/-- C5 witness: intent "greeting" at confidence `0.8` with sample index
1 picks the second greeting template. -/
theorem generateResponse_template_path_witness :
    generateResponse ⟨"greeting", 4/5, "classifier"⟩ "neutral"
      defaultContext false .failure 1 0
      = ⟨personalizeResponse
          "Hi there! 😊 I'm your AI assistant and I'm excited to help. What would you like to explore or work on together?"
          "neutral" defaultContext, .template⟩ :=
  (generateResponse_template_path ⟨"greeting", 4/5, "classifier"⟩ "neutral"
    defaultContext false .failure 1 0 _ rfl sevenTenths_lt_fourFifths).2.1
    1 (by decide)

/-- Helper: `addMessage` appends the message and changes nothing else in
the `messages` list. -/
theorem addMessage_messages (now : ℕ) (c : ChatDoc) (m : ChatMsg) :
    (addMessage now c m).messages = c.messages ++ [m] := by
  unfold addMessage
  rw [chatSave_messages]

/-- Helper: the pre-save hook recomputes `averageResponseTime` as the
mean of the stored latencies whenever messages exist. -/
theorem preSaveHook_avg (now : ℕ) (c : ChatDoc) (h : 0 < c.messages.length) :
    (preSaveHook now c).analytics.averageResponseTime
      = (c.messages.map (fun m => m.responseTime)).sum
        / ((c.messages.length : ℕ) : ℚ) := by
  unfold preSaveHook
  rw [if_pos h]
  dsimp only
  rw [List.length_map]

/-- C7: after every `saveMessage` append the conversation aggregate
`averageResponseTime` equals the arithmetic mean of all stored message
latencies; concretely, appending a third message of latency 300 to a
conversation holding latencies 100 and 200 yields mean 200. -/
theorem saveMessage_average_response_time (now : ℕ) (c : ChatDoc)
    (d : MessageData) :
    (∃ cNew, saveMessage now (some c) d = .ok cNew
      ∧ cNew.messages = c.messages ++ [buildMessageObj d]
      ∧ cNew.analytics.averageResponseTime
          = ((c.messages ++ [buildMessageObj d]).map
              (fun m => m.responseTime)).sum
            / (((c.messages.length + 1 : ℕ) : ℚ)))
    ∧ (∃ cEx, saveMessage 5 (some exampleChatTwo) exampleData300 = .ok cEx
        ∧ cEx.analytics.averageResponseTime = 200) := by
  constructor
  · refine ⟨_, rfl, ?_, ?_⟩
    · show (chatSave _ _).messages = _
      rw [chatSave_messages]
      dsimp only
      rw [addMessage_messages]
    · show (chatSave _ _).analytics.averageResponseTime = _
      unfold chatSave
      rw [preSaveHook_avg]
      · dsimp only
        rw [addMessage_messages]
        simp
      · dsimp only
        rw [addMessage_messages]
        simp
  · refine ⟨_, rfl, ?_⟩
    norm_num [saveMessage, addMessage, chatSave, preSaveHook,
      exampleChatTwo, exampleData300, buildMessageObj, exampleMessage,
      jsOrQ, jsOrStr, isRated]

/-- Helper: `updateChatAnalytics` never changes the `status` field. -/
theorem updateChatAnalytics_status (now : ℕ) (c : ChatDoc) :
    (updateChatAnalytics now c).status = c.status := by
  unfold updateChatAnalytics
  rw [chatSave_status]
  split <;> rfl

/-- Helper: `updateChatAnalytics` never changes the `messages` field. -/
theorem updateChatAnalytics_messages (now : ℕ) (c : ChatDoc) :
    (updateChatAnalytics now c).messages = c.messages := by
  unfold updateChatAnalytics
  rw [chatSave_messages]
  split <;> rfl

/-- C8 counterexample: `endChat` checks no status precondition, so on a
paused chat whose only participant leaves it moves the status directly
from `paused` to `ended` — a transition outside the spec's claimed set. -/
theorem endChat_paused_to_ended_counterexample :
    specAllowedStatusTransition ChatStatus.paused ChatStatus.ended = false
    ∧ (endChat 1
        (some ⟨"roomP", [⟨"u1", "user", 0, none⟩], [], .paused, ⟨0, 0, 0, 0⟩⟩)
        "u1").toOption.map ChatDoc.status = some ChatStatus.ended :=
  ⟨rfl, rfl⟩

/-- C8 amended: the operations transition `status` only along:
unchanged; `active → paused` (inactivity cleanup); any status `→ ended`
(`endChat`, which checks no status precondition, so a paused or archived
chat whose last active participant leaves also becomes ended); any
status `→ archived` (`archiveChat`); `joinChat`, `saveMessage` and
feedback submission never change the status, and no operation ever sets
a conversation back to `active` (`joinChat` throws on non-active chats
instead of reopening them). -/
theorem status_transitions_of_operations (now threshold : ℕ) (c : ChatDoc)
    (uid : String) (role : Option String) :
    (∀ cNew, endChat now (some c) uid = .ok cNew →
        cNew.status = c.status ∨ cNew.status = .ended)
    ∧ (∀ cNew, archiveChat now (some c) role = .ok cNew →
        cNew.status = .archived)
    ∧ ((cleanupStep now threshold c).status = c.status
        ∨ (c.status = .active ∧ (cleanupStep now threshold c).status = .paused))
    ∧ (∀ cNew, joinChat now (some c) uid = .ok cNew → cNew.status = c.status)
    ∧ (∀ cNew d, saveMessage now (some c) d = .ok cNew →
        cNew.status = c.status)
    ∧ (∀ cNew i fb, addMessageFeedback now (some c) i fb = .ok cNew →
        cNew.status = c.status) := by
  refine ⟨fun cNew h => ?_, fun cNew h => ?_, ?_, fun cNew h => ?_,
    fun cNew d h => ?_, fun cNew i fb h => ?_⟩
  · simp only [endChat] at h
    split at h
    · split at h
      · cases h
        right
        rw [chatSave_status]
      · cases h
        left
        unfold removeParticipant
        rw [chatSave_status]
    · cases h
  · simp only [archiveChat] at h
    split at h
    · split at h
      · cases h
        rw [chatSave_status]
      · cases h
    · cases h
  · unfold cleanupStep
    split
    · rename_i hcond
      exact Or.inr ⟨hcond.1, by rw [chatSave_status]⟩
    · exact Or.inl rfl
  · simp only [joinChat] at h
    split at h
    · split at h
      · cases h
        rfl
      · cases h
        rw [chatSave_status]
        unfold addParticipant
        rw [chatSave_status]
        split <;> rfl
    · cases h
  · simp only [saveMessage] at h
    cases h
    rw [chatSave_status]
    dsimp only
    unfold addMessage
    rw [chatSave_status]
  · simp only [addMessageFeedback] at h
    split at h
    · cases h
    · cases h
      rw [updateChatAnalytics_status, chatSave_status]

/-- C8 witness: archiving a concrete active chat as an admin yields
status archived. -/
theorem status_transitions_of_operations_witness :
    ∃ cNew, archiveChat 1 (some exampleActiveChat) (some "admin") = .ok cNew
      ∧ cNew.status = ChatStatus.archived :=
  ⟨_, rfl, (status_transitions_of_operations 1 0 exampleActiveChat "u1"
      (some "admin")).2.1 _ rfl⟩

/-- C9 counterexample: feedback is not attach-once — a second
`addMessageFeedback` on the same message silently replaces the first
feedback (rating 5 becomes rating 1 with a fresh timestamp). -/
theorem addMessageFeedback_overwrites_counterexample :
    ((addMessageFeedback 1 (some exampleChatOneMsg) 0 ⟨5, "good"⟩).toOption.bind
        (fun c1 => (addMessageFeedback 2 (some c1) 0 ⟨1, "bad"⟩).toOption)).map
      (fun c2 => c2.messages.map (fun m => m.feedback))
      = some [some ⟨1, "bad", 2⟩]
    ∧ ((addMessageFeedback 1 (some exampleChatOneMsg) 0 ⟨5, "good"⟩).toOption).map
        (fun c1 => c1.messages.map (fun m => m.feedback))
      = some [some ⟨5, "good", 1⟩] :=
  ⟨rfl, rfl⟩

/-- C9 amended: a message is immutable once appended except for its
feedback field, but the feedback field is assigned unconditionally by
`addMessageFeedback` — it may be attached and later replaced (last write
wins, with a fresh timestamp) rather than attached exactly once; all
other message fields and all other messages are untouched, and appends
preserve the already-stored messages. -/
theorem addMessageFeedback_only_replaces_feedback (now : ℕ) (c : ChatDoc)
    (i : ℕ) (fb : FeedbackInput) (cNew : ChatDoc)
    (h : addMessageFeedback now (some c) i fb = .ok cNew) :
    cNew.messages.length = c.messages.length
    ∧ cNew.messages.get? i
        = (c.messages.get? i).map
            (fun m => { m with feedback := some ⟨fb.rating, fb.comment, now⟩ })
    ∧ (∀ j, j ≠ i → cNew.messages.get? j = c.messages.get? j)
    ∧ (∀ cNew2 d, saveMessage now (some c) d = .ok cNew2 →
        cNew2.messages = c.messages ++ [buildMessageObj d]) := by
  simp only [addMessageFeedback] at h
  split at h
  · cases h
  · rename_i m hm
    cases h
    refine ⟨?_, ?_, fun j hj => ?_, ?_⟩
    · rw [updateChatAnalytics_messages, chatSave_messages]
      exact List.length_set _ _ _
    · rw [updateChatAnalytics_messages, chatSave_messages]
      dsimp only
      rw [List.get?_set_eq, hm]
      rfl
    · rw [updateChatAnalytics_messages, chatSave_messages]
      exact List.get?_set_ne _ _ hj.symm
    · intro cNew2 d h2
      simp only [saveMessage] at h2
      cases h2
      rw [chatSave_messages]
      dsimp only
      rw [addMessage_messages]

/-- C9 amended witness: attaching feedback to the concrete one-message
chat rewrites exactly that message's feedback field. -/
theorem addMessageFeedback_only_replaces_feedback_witness :
    ∃ cNew, addMessageFeedback 1 (some exampleChatOneMsg) 0 ⟨5, "good"⟩
        = .ok cNew
      ∧ cNew.messages.get? 0
          = (exampleChatOneMsg.messages.get? 0).map
              (fun m => { m with feedback := some ⟨(5 : ℚ), "good", 1⟩ }) :=
  ⟨_, rfl, (addMessageFeedback_only_replaces_feedback 1 exampleChatOneMsg 0
      ⟨5, "good"⟩ _ rfl).2.1⟩

end Chatbot
